import Mathlib

/-!
Verification of the booking-and-payment reconciliation core.

The definitions below are a shallow embedding of the TypeScript route
handlers of the booking system: the Stripe webhook receiver and its three
event handlers, the payment-intent creation and confirmation endpoints
(POST and PUT on the payments route), and the booking creation endpoint.
The Prisma store is modelled as lists of records; `prisma.<model>.update`
is modelled as a partial operation that fails (throws) when no row matches,
mirroring Prisma semantics.  External collaborators (the Stripe client and
its webhook signature check) are passed in as function parameters, since
their code is not part of this repository.  Timestamps (`new Date()`,
`Date.now()`) are modelled as natural-number milliseconds passed in as a
`now` parameter.  Currency values (Prisma `Decimal`, JS numbers) are
modelled as rationals.
-/

namespace BookingSystem

/-- Service record: reference data read by the booking and payment flows. -/
structure Service where
  id : String
  name : String
  price : ℚ
deriving Repr, DecidableEq

/-- Booking record, as persisted by the booking route. -/
structure Booking where
  id : String
  serviceId : String
  customerName : String
  customerEmail : String
  customerPhone : String
  customerAddress : String
  status : String
  scheduledDate : Nat
  notes : Option String
  budget : Option ℚ
  totalAmount : ℚ
  depositAmount : ℚ
deriving Repr, DecidableEq

/-- Payment record, as persisted by the payments route and the webhook. -/
structure Payment where
  id : String
  bookingId : String
  amount : ℚ
  currency : String
  status : String
  paymentType : String
  stripePaymentIntentId : Option String
  stripeChargeId : Option String
  paidAt : Option Nat
  description : String
deriving Repr, DecidableEq

/-- The persistent store reached through the Prisma client. -/
structure DB where
  services : List Service
  bookings : List Booking
  payments : List Payment
deriving Repr, DecidableEq

/-- Metadata attached to a Stripe payment intent at creation
(see the `metadata` block in the POST handler). -/
structure IntentMetadata where
  bookingId : String
  paymentType : String
deriving Repr, DecidableEq

/-- The slice of a Stripe payment-intent object the handlers read:
its id, its status string, its latest charge (when that field is a
string), and the creation metadata. -/
structure StripePaymentIntent where
  id : String
  status : String
  latestCharge : Option String
  metadata : IntentMetadata
deriving Repr, DecidableEq

/-- The slice of a Stripe charge object the refund handler reads. -/
structure StripeCharge where
  id : String
deriving Repr, DecidableEq

/-- Model of `prisma.payment.update` keyed by payment id: fails
(Prisma throws) when no row matches, otherwise returns the updated row
and the updated store. -/
def prismaUpdatePayment (db : DB) (pid : String) (f : Payment → Payment) :
    Option (Payment × DB) :=
  match db.payments.find? (fun p => p.id == pid) with
  | none => none
  | some p =>
      some (f p,
        { db with payments := db.payments.map (fun q => if q.id = pid then f q else q) })

/-- Model of `prisma.booking.update` keyed by booking id. -/
def prismaUpdateBooking (db : DB) (bid : String) (f : Booking → Booking) :
    Option (Booking × DB) :=
  match db.bookings.find? (fun b => b.id == bid) with
  | none => none
  | some b =>
      some (f b,
        { db with bookings := db.bookings.map (fun q => if q.id = bid then f q else q) })

/-- The record update applied to a Payment on success, duplicated verbatim
in `handlePaymentSucceeded` and in the PUT confirmation handler:
status `succeeded`, charge id captured from the intent, paidAt set to now. -/
def markSucceeded (intent : StripePaymentIntent) (now : Nat) (p : Payment) : Payment :=
  { p with status := "succeeded", stripeChargeId := intent.latestCharge, paidAt := some now }

/-- The record update applied to a Booking on full-payment success. -/
def confirmBooking (b : Booking) : Booking :=
  { b with status := "confirmed" }

/-- Webhook handler for `payment_intent.succeeded`: finds the Payment by
stripe intent id (missing is log-and-ignore), unconditionally applies the
success update, then, when the intent metadata says `full`, unconditionally
confirms the Booking named by the metadata.  Its surrounding try/catch
swallows errors, so a failing booking update leaves the already committed
payment update in place. -/
def handlePaymentSucceeded (db : DB) (intent : StripePaymentIntent) (now : Nat) : DB :=
  match db.payments.find? (fun p => p.stripePaymentIntentId == some intent.id) with
  | none => db
  | some payment =>
      match prismaUpdatePayment db payment.id (markSucceeded intent now) with
      | none => db
      | some (_, db1) =>
          if intent.metadata.paymentType = "full" then
            match prismaUpdateBooking db1 intent.metadata.bookingId confirmBooking with
            | none => db1
            | some (_, db2) => db2
          else db1

/-- Webhook handler for `payment_intent.payment_failed`: finds the Payment
by stripe intent id and, when found, unconditionally sets its status to
`failed` regardless of the current status. -/
def handlePaymentFailed (db : DB) (intent : StripePaymentIntent) : DB :=
  match db.payments.find? (fun p => p.stripePaymentIntentId == some intent.id) with
  | none => db
  | some payment =>
      match prismaUpdatePayment db payment.id (fun p => { p with status := "failed" }) with
      | none => db
      | some (_, db1) => db1

/-- Webhook handler for `charge.refunded`: finds the Payment by stripe
charge id and, when found, sets its status to `refunded`. -/
def handleChargeRefunded (db : DB) (charge : StripeCharge) : DB :=
  match db.payments.find? (fun p => p.stripeChargeId == some charge.id) with
  | none => db
  | some payment =>
      match prismaUpdatePayment db payment.id (fun p => { p with status := "refunded" }) with
      | none => db
      | some (_, db1) => db1

/-- A Stripe event as produced by `stripe.webhooks.constructEvent`,
restricted to the shapes the switch statement inspects. -/
inductive StripeEvent where
  | paymentIntentSucceeded (intent : StripePaymentIntent)
  | paymentIntentFailed (intent : StripePaymentIntent)
  | chargeRefunded (charge : StripeCharge)
  | unrecognized (eventType : String)
deriving Repr, DecidableEq

/-- HTTP response of the webhook route: status code plus optional error body. -/
structure WebhookResponse where
  httpStatus : Nat
  errorMsg : Option String
deriving Repr, DecidableEq

/-- The webhook POST route: `constructEvent` models
`stripe.webhooks.constructEvent(body, sig, secret)`, returning `none` when
signature verification throws.  On verification failure the route returns
400 with no event processing; otherwise it dispatches on the event type and
acknowledges with 200 (unrecognized event types are ignored). -/
def webhookPOST (db : DB)
    (constructEvent : String → String → String → Option StripeEvent)
    (rawBody signatureHeader secret : String) (now : Nat) :
    WebhookResponse × DB :=
  match constructEvent rawBody signatureHeader secret with
  | none => ({ httpStatus := 400, errorMsg := some "Invalid signature" }, db)
  | some ev =>
      let db1 :=
        match ev with
        | .paymentIntentSucceeded intent => handlePaymentSucceeded db intent now
        | .paymentIntentFailed intent => handlePaymentFailed db intent
        | .chargeRefunded charge => handleChargeRefunded db charge
        | .unrecognized _ => db
      ({ httpStatus := 200, errorMsg := none }, db1)

/-- JS falsiness of an optional string field (absent or empty). -/
def isBlank (s : Option String) : Bool :=
  match s with
  | none => true
  | some t => t == ""

/-- JS falsiness of an optional numeric field (absent or zero). -/
def isFalsyAmount (a : Option ℚ) : Bool :=
  match a with
  | none => true
  | some q => q == 0

/-- JS `Math.round`: round half toward positive infinity. -/
def mathRound (q : ℚ) : ℤ :=
  ⌊q + 1 / 2⌋

/-- Outcome of the PUT confirmation handler, one constructor per distinct
response the source builds: 400 missing fields, 200 success with the
updated payment, 200 still-processing, 400 payment failed, and the generic
500 produced by the surrounding catch. -/
inductive ConfirmResult where
  | missingFields
  | confirmed (payment : Payment)
  | stillProcessing
  | paymentFailed
  | serverError
deriving Repr, DecidableEq

/-- HTTP status code the source attaches to each PUT confirmation outcome. -/
def confirmHttpStatus : ConfirmResult → Nat
  | .missingFields => 400
  | .confirmed _ => 200
  | .stillProcessing => 200
  | .paymentFailed => 400
  | .serverError => 500

/-- The PUT confirmation handler on the payments route.  `retrieveIntent`
models `stripe.paymentIntents.retrieve` (`none` when the call throws).  On a
gateway status of `succeeded` it updates the Payment row keyed only by the
caller-supplied `paymentId` (never comparing the stored intent id with the
supplied one); a missing Payment row makes the Prisma update throw, which
the surrounding catch turns into the generic 500.  When the updated
Payment has paymentType `full`, the associated Booking is confirmed; a
failing booking update also falls into the catch after the payment update
already committed. -/
def confirmIntentPUT (db : DB)
    (retrieveIntent : String → Option StripePaymentIntent)
    (paymentIntentId paymentId : Option String) (now : Nat) :
    ConfirmResult × DB :=
  if isBlank paymentIntentId || isBlank paymentId then
    (.missingFields, db)
  else
    match retrieveIntent (paymentIntentId.getD "") with
    | none => (.serverError, db)
    | some intent =>
        if intent.status = "succeeded" then
          match prismaUpdatePayment db (paymentId.getD "") (markSucceeded intent now) with
          | none => (.serverError, db)
          | some (payment, db1) =>
              if payment.paymentType = "full" then
                match prismaUpdateBooking db1 payment.bookingId confirmBooking with
                | none => (.serverError, db1)
                | some (_, db2) => (.confirmed payment, db2)
              else (.confirmed payment, db1)
        else if intent.status = "processing" then
          (.stillProcessing, db)
        else
          (.paymentFailed, db)

/-- The request the POST handler passes to `stripe.paymentIntents.create`:
amount in minor units, currency, and the metadata block. -/
structure IntentCreateParams where
  amountMinor : ℤ
  currency : String
  metaBookingId : String
  metaPaymentType : String
  metaCustomerEmail : String
  metaServiceName : String
deriving Repr, DecidableEq

/-- Outcome of the POST intent-creation handler. -/
inductive CreateResult where
  | missingFields
  | bookingNotFound
  | created (clientSecret : String) (paymentId : String) (amount : ℚ) (paymentType : String)
  | serverError
deriving Repr, DecidableEq

/-- The POST handler on the payments route.  `gatewayCreate` models
`stripe.paymentIntents.create`, returning the new intent id and client
secret, or `none` when the call throws; the third component of the result
records the request sent to the gateway (`none` when no call was made).
`newPaymentId` models the id Prisma generates for the created row.  The
Payment row stores the caller-supplied amount as given; it is never
re-derived from the Service price. -/
def createIntentPOST (db : DB)
    (gatewayCreate : IntentCreateParams → Option (String × String))
    (newPaymentId : String)
    (bookingId : Option String) (amount : Option ℚ) (paymentType : Option String) :
    CreateResult × DB × Option IntentCreateParams :=
  if isBlank bookingId || isFalsyAmount amount then
    (.missingFields, db, none)
  else
    let bid := bookingId.getD ""
    let amt := amount.getD 0
    let ptype := paymentType.getD "deposit"
    match db.bookings.find? (fun b => b.id == bid) with
    | none => (.bookingNotFound, db, none)
    | some booking =>
        match db.services.find? (fun s => s.id == booking.serviceId) with
        | none => (.serverError, db, none)
        | some service =>
            let params : IntentCreateParams :=
              { amountMinor := mathRound (amt * 100), currency := "usd",
                metaBookingId := bid, metaPaymentType := ptype,
                metaCustomerEmail := booking.customerEmail,
                metaServiceName := service.name }
            match gatewayCreate params with
            | none => (.serverError, db, some params)
            | some (intentId, clientSecret) =>
                let payment : Payment :=
                  { id := newPaymentId, bookingId := bid, amount := amt,
                    currency := "usd", status := "pending", paymentType := ptype,
                    stripePaymentIntentId := some intentId, stripeChargeId := none,
                    paidAt := none,
                    description := ptype ++ " payment for " ++ service.name }
                (.created clientSecret newPaymentId amt ptype,
                 { db with payments := db.payments ++ [payment] },
                 some params)

/-- Request body of the booking POST route.  The source destructures only
seven properties; `status` and `scheduledDate` are carried here to express
that a client may send them and the handler never reads them. -/
structure BookingRequest where
  serviceId : Option String
  customerName : Option String
  customerEmail : Option String
  customerPhone : Option String
  customerAddress : Option String
  budget : Option ℚ
  notes : Option String
  status : Option String
  scheduledDate : Option Nat
deriving Repr, DecidableEq

/-- Outcome of the booking POST route. -/
inductive BookingCreateResult where
  | missingFields
  | serviceNotFound
  | created (booking : Booking)
deriving Repr, DecidableEq

/-- The `data` block of `prisma.booking.create` in the booking POST route:
reads only the seven destructured request properties, forces status
`pending`, schedules seven days out, and snapshots the amounts from the
service price (deposit is half). -/
def newBookingFrom (req : BookingRequest) (now : Nat) (newBookingId : String)
    (service : Service) : Booking :=
  { id := newBookingId,
    serviceId := req.serviceId.getD "",
    customerName := req.customerName.getD "",
    customerEmail := req.customerEmail.getD "",
    customerPhone := req.customerPhone.getD "",
    customerAddress := req.customerAddress.getD "",
    status := "pending",
    scheduledDate := now + 7 * 24 * 60 * 60 * 1000,
    notes := match req.notes with
      | none => none
      | some s => if s = "" then none else some s,
    budget := match req.budget with
      | none => none
      | some b => if b = 0 then none else some b,
    totalAmount := service.price,
    depositAmount := service.price * 0.5 }

/-- The booking POST route: validates the five required fields, looks up
the Service, and persists the Booking built by `newBookingFrom`.
`newBookingId` models the Prisma-generated id. -/
def createBookingPOST (db : DB) (req : BookingRequest) (now : Nat)
    (newBookingId : String) : BookingCreateResult × DB :=
  if isBlank req.serviceId || isBlank req.customerName || isBlank req.customerEmail ||
      isBlank req.customerPhone || isBlank req.customerAddress then
    (.missingFields, db)
  else
    match db.services.find? (fun s => s.id == req.serviceId.getD "") with
    | none => (.serviceNotFound, db)
    | some service =>
        let booking := newBookingFrom req now newBookingId service
        (.created booking, { db with bookings := db.bookings ++ [booking] })

/-- Modelled from the spec: a later change to `Service.price`.  The source
has no price-update endpoint (prices are written only by seeding); this
models the store-level mutation the spec contemplates when it says the
booking amounts are a snapshot and must not drift if the price changes
later. -/
def updateServicePrice (db : DB) (sid : String) (newPrice : ℚ) : DB :=
  { db with services := db.services.map (fun s => if s.id = sid then { s with price := newPrice } else s) }

/-! Helper lemmas about keyed list updates and lookups. -/

lemma map_update_update {α : Type} (idf : α → String) (key : String) (g1 g2 : α → α)
    (h1 : ∀ a, idf (g1 a) = idf a) (l : List α) :
    (l.map (fun a => if idf a = key then g1 a else a)).map
        (fun a => if idf a = key then g2 a else a) =
      l.map (fun a => if idf a = key then g2 (g1 a) else a) := by
  induction l with
  | nil => rfl
  | cons a t ih =>
      by_cases h : idf a = key
      · simp [h, h1 a, ih]
      · simp [h, ih]

lemma find?_map_of_pred_pres {α : Type} (f : α → α) (pred : α → Bool)
    (hf : ∀ a, pred (f a) = pred a) (l : List α) :
    (l.map f).find? pred = (l.find? pred).map f := by
  induction l with
  | nil => rfl
  | cons a t ih =>
      by_cases h : pred a = true
      · rw [List.map_cons, List.find?_cons_of_pos, List.find?_cons_of_pos _ h]
        · rfl
        · rw [hf]; exact h
      · rw [List.map_cons, List.find?_cons_of_neg, List.find?_cons_of_neg _ h, ih]
        rw [hf]; exact h

lemma markSucceeded_id (intent : StripePaymentIntent) (t : Nat) (q : Payment) :
    (markSucceeded intent t q).id = q.id := rfl

lemma markSucceeded_absorb (intent : StripePaymentIntent) (t1 t2 : Nat) (q : Payment) :
    markSucceeded intent t2 (markSucceeded intent t1 q) = markSucceeded intent t2 q := rfl

lemma confirmBooking_absorb (b : Booking) :
    confirmBooking (confirmBooking b) = confirmBooking b := rfl

/-- Explicit description of `handlePaymentSucceeded` when the Payment is
found: the payment row keyed by the found id gets the success update, and
the metadata Booking is confirmed exactly when the metadata says `full`
and that Booking exists. -/
lemma hps_normal_form (db : DB) (intent : StripePaymentIntent) (now : Nat) (p : Payment)
    (hf : db.payments.find? (fun q => q.stripePaymentIntentId == some intent.id) = some p) :
    handlePaymentSucceeded db intent now =
      { db with
        payments := db.payments.map
          (fun q => if q.id = p.id then markSucceeded intent now q else q),
        bookings :=
          if intent.metadata.paymentType = "full" then
            if (db.bookings.find? (fun b => b.id == intent.metadata.bookingId)).isSome then
              db.bookings.map
                (fun b => if b.id = intent.metadata.bookingId then confirmBooking b else b)
            else db.bookings
          else db.bookings } := by
  have hmem : p ∈ db.payments := List.mem_of_find?_eq_some hf
  unfold handlePaymentSucceeded prismaUpdatePayment
  rw [hf]
  cases hq : db.payments.find? (fun q => q.id == p.id) with
  | none =>
      exfalso
      rw [List.find?_eq_none] at hq
      exact absurd (beq_self_eq_true p.id) (by simpa using hq p hmem)
  | some p0 =>
      by_cases pt : intent.metadata.paymentType = "full"
      · simp only [hq, pt, if_true]
        unfold prismaUpdateBooking
        cases hb : db.bookings.find? (fun b => b.id == intent.metadata.bookingId) with
        | none => simp [hb]
        | some b => simp [hb]
      · simp [hq, pt]

/-- Applying the success handler a second time produces exactly the state
of a single application at the second delivery time. -/
lemma hps_absorb (db : DB) (intent : StripePaymentIntent) (t1 t2 : Nat) :
    handlePaymentSucceeded (handlePaymentSucceeded db intent t1) intent t2 =
      handlePaymentSucceeded db intent t2 := by
  cases hf : db.payments.find? (fun q => q.stripePaymentIntentId == some intent.id) with
  | none =>
      have h1 : handlePaymentSucceeded db intent t1 = db := by
        unfold handlePaymentSucceeded
        rw [hf]
      rw [h1]
  | some p =>
      have hpres : ∀ q : Payment,
          ((if q.id = p.id then markSucceeded intent t1 q else q).stripePaymentIntentId ==
            some intent.id) = (q.stripePaymentIntentId == some intent.id) := by
        intro q
        by_cases h : q.id = p.id <;> simp [h, markSucceeded]
      have hbpres : ∀ b : Booking,
          ((if b.id = intent.metadata.bookingId then confirmBooking b else b).id ==
            intent.metadata.bookingId) = (b.id == intent.metadata.bookingId) := by
        intro b
        by_cases h : b.id = intent.metadata.bookingId <;> simp [h, confirmBooking]
      have h1 := hps_normal_form db intent t1 p hf
      have hfind1 :
          ((db.payments.map (fun q => if q.id = p.id then markSucceeded intent t1 q else q)).find?
            (fun q => q.stripePaymentIntentId == some intent.id)) =
            some (markSucceeded intent t1 p) := by
        rw [find?_map_of_pred_pres _ _ hpres, hf]
        simp
      rw [h1]
      by_cases pt : intent.metadata.paymentType = "full"
      · by_cases hbs : (db.bookings.find? (fun b => b.id == intent.metadata.bookingId)).isSome
        · obtain ⟨b0, hb0⟩ := Option.isSome_iff_exists.mp hbs
          have h2 := hps_normal_form
            { db with
              payments := db.payments.map
                (fun q => if q.id = p.id then markSucceeded intent t1 q else q),
              bookings :=
                if intent.metadata.paymentType = "full" then
                  if (db.bookings.find? (fun b => b.id == intent.metadata.bookingId)).isSome then
                    db.bookings.map
                      (fun b => if b.id = intent.metadata.bookingId then confirmBooking b else b)
                  else db.bookings
                else db.bookings }
            intent t2 (markSucceeded intent t1 p) (by simpa using hfind1)
          have hfb : ((db.bookings.map
              (fun b => if b.id = intent.metadata.bookingId then confirmBooking b else b)).find?
                (fun b => b.id == intent.metadata.bookingId)) =
              some (if b0.id = intent.metadata.bookingId then confirmBooking b0 else b0) := by
            rw [find?_map_of_pred_pres _ _ hbpres, hb0]
            rfl
          rw [h2, hps_normal_form db intent t2 p hf]
          simp only [pt, hbs, if_true, markSucceeded_id, hfb, Option.isSome_some]
          rw [map_update_update Booking.id intent.metadata.bookingId confirmBooking confirmBooking
              (fun b => rfl) db.bookings,
            map_update_update Payment.id p.id (markSucceeded intent t1) (markSucceeded intent t2)
              (fun q => rfl) db.payments]
          simp only [markSucceeded_absorb, confirmBooking_absorb]
        · have h2 := hps_normal_form
            { db with
              payments := db.payments.map
                (fun q => if q.id = p.id then markSucceeded intent t1 q else q),
              bookings :=
                if intent.metadata.paymentType = "full" then
                  if (db.bookings.find? (fun b => b.id == intent.metadata.bookingId)).isSome then
                    db.bookings.map
                      (fun b => if b.id = intent.metadata.bookingId then confirmBooking b else b)
                  else db.bookings
                else db.bookings }
            intent t2 (markSucceeded intent t1 p) (by simpa using hfind1)
          rw [h2, hps_normal_form db intent t2 p hf]
          simp only [pt, hbs, if_true, if_false, markSucceeded_id, Bool.false_eq_true]
          rw [map_update_update Payment.id p.id (markSucceeded intent t1) (markSucceeded intent t2)
              (fun q => rfl) db.payments]
          simp only [markSucceeded_absorb]
      · have h2 := hps_normal_form
          { db with
            payments := db.payments.map
              (fun q => if q.id = p.id then markSucceeded intent t1 q else q),
            bookings :=
              if intent.metadata.paymentType = "full" then
                if (db.bookings.find? (fun b => b.id == intent.metadata.bookingId)).isSome then
                  db.bookings.map
                    (fun b => if b.id = intent.metadata.bookingId then confirmBooking b else b)
                else db.bookings
              else db.bookings }
          intent t2 (markSucceeded intent t1 p) (by simpa using hfind1)
        rw [h2, hps_normal_form db intent t2 p hf]
        simp only [pt, if_false, markSucceeded_id, Bool.false_eq_true]
        rw [map_update_update Payment.id p.id (markSucceeded intent t1) (markSucceeded intent t2)
            (fun q => rfl) db.payments]
        simp only [markSucceeded_absorb]

/-- Explicit description of `handlePaymentFailed` when the Payment is
found: the row keyed by the found id has its status overwritten with
`failed`, whatever it was. -/
lemma hpf_normal_form (db : DB) (intent : StripePaymentIntent) (p : Payment)
    (hf : db.payments.find? (fun q => q.stripePaymentIntentId == some intent.id) = some p) :
    handlePaymentFailed db intent =
      { db with
        payments := db.payments.map
          (fun q => if q.id = p.id then { q with status := "failed" } else q) } := by
  have hmem : p ∈ db.payments := List.mem_of_find?_eq_some hf
  unfold handlePaymentFailed prismaUpdatePayment
  rw [hf]
  cases hq : db.payments.find? (fun q => q.id == p.id) with
  | none =>
      exfalso
      rw [List.find?_eq_none] at hq
      exact absurd (beq_self_eq_true p.id) (by simpa using hq p hmem)
  | some p0 => simp [hq]

/-- Explicit description of `handleChargeRefunded` when the Payment is
found by charge id: its status is overwritten with `refunded`. -/
lemma hcr_normal_form (db : DB) (charge : StripeCharge) (p : Payment)
    (hf : db.payments.find? (fun q => q.stripeChargeId == some charge.id) = some p) :
    handleChargeRefunded db charge =
      { db with
        payments := db.payments.map
          (fun q => if q.id = p.id then { q with status := "refunded" } else q) } := by
  have hmem : p ∈ db.payments := List.mem_of_find?_eq_some hf
  unfold handleChargeRefunded prismaUpdatePayment
  rw [hf]
  cases hq : db.payments.find? (fun q => q.id == p.id) with
  | none =>
      exfalso
      rw [List.find?_eq_none] at hq
      exact absurd (beq_self_eq_true p.id) (by simpa using hq p hmem)
  | some p0 => simp [hq]

/-- Explicit description of the PUT confirmation handler on the succeeded
branch when the Payment row exists and, for a full payment, so does its
Booking. -/
lemma confirm_succeeded_eq (db : DB) (retrieveIntent : String → Option StripePaymentIntent)
    (intentId pid : String) (now : Nat) (intent : StripePaymentIntent) (payment : Payment)
    (hid : intentId ≠ "") (hpid : pid ≠ "")
    (hret : retrieveIntent intentId = some intent)
    (hstat : intent.status = "succeeded")
    (hfind : db.payments.find? (fun p => p.id == pid) = some payment)
    (hbk : payment.paymentType = "full" →
      (db.bookings.find? (fun b => b.id == payment.bookingId)).isSome) :
    confirmIntentPUT db retrieveIntent (some intentId) (some pid) now =
      (.confirmed (markSucceeded intent now payment),
       { db with
         payments := db.payments.map
           (fun q => if q.id = pid then markSucceeded intent now q else q),
         bookings :=
           if payment.paymentType = "full" then
             db.bookings.map
               (fun b => if b.id = payment.bookingId then confirmBooking b else b)
           else db.bookings }) := by
  unfold confirmIntentPUT prismaUpdatePayment prismaUpdateBooking
  rw [if_neg (by simp [isBlank, hid, hpid])]
  simp only [Option.getD_some, hret, hstat, if_true, hfind]
  by_cases pt : payment.paymentType = "full"
  · have hbks := hbk pt
    obtain ⟨b0, hb0⟩ := Option.isSome_iff_exists.mp hbks
    simp only [markSucceeded] at hb0 ⊢
    simp only [pt, if_true, hb0]
  · simp only [markSucceeded, pt, if_false]

/-! Sample data used by witnesses and counterexamples. -/

def svcSample : Service :=
  { id := "svc_1", name := "House Cleaning", price := 150 }

def bookPending : Booking :=
  { id := "bk_1", serviceId := "svc_1", customerName := "Ada",
    customerEmail := "ada@example.com", customerPhone := "555-0100",
    customerAddress := "1 Main St", status := "pending", scheduledDate := 0,
    notes := none, budget := none, totalAmount := 150, depositAmount := 75 }

def payPendingFull : Payment :=
  { id := "pay_1", bookingId := "bk_1", amount := 150, currency := "usd",
    status := "pending", paymentType := "full",
    stripePaymentIntentId := some "pi_1", stripeChargeId := none,
    paidAt := none, description := "full payment for House Cleaning" }

def dbMain : DB :=
  { services := [svcSample], bookings := [bookPending], payments := [payPendingFull] }

def intentSucceededSample : StripePaymentIntent :=
  { id := "pi_1", status := "succeeded", latestCharge := some "ch_1",
    metadata := { bookingId := "bk_1", paymentType := "full" } }

def paySucceeded : Payment :=
  { payPendingFull with status := "succeeded", stripeChargeId := some "ch_1", paidAt := some 500 }

def bookConfirmed : Booking :=
  { bookPending with status := "confirmed" }

def dbSucceeded : DB :=
  { services := [svcSample], bookings := [bookConfirmed], payments := [paySucceeded] }

def intentFailedSample : StripePaymentIntent :=
  { id := "pi_1", status := "requires_payment_method", latestCharge := none,
    metadata := { bookingId := "bk_1", paymentType := "full" } }

/-! Claim theorems. -/

/-- Claim C1, counterexample: the success transition is not a strict no-op
on re-application.  A second delivery of the same `payment_intent.succeeded`
event at a later time changes the persisted state again (the unconditional
update overwrites `paidAt` with the later timestamp), so the second
application does perform a further state change, contrary to the claim. -/
theorem webhookSuccess_reapplication_not_noop_cex :
    handlePaymentSucceeded (handlePaymentSucceeded dbMain intentSucceededSample 1000)
        intentSucceededSample 2000 ≠
      handlePaymentSucceeded dbMain intentSucceededSample 1000 := by
  decide

/-- Claim C1, amended: re-applying the success transition never errors and
is idempotent up to the delivery timestamp — the composite of two
applications equals a single application at the second delivery time (so
status fields reach `succeeded`/`confirmed` once and are merely re-asserted,
and with equal timestamps the re-application is a strict no-op), and the
webhook route acknowledges the re-delivery with 200; but the second
application does re-execute the unconditional updates, overwriting `paidAt`
with the later delivery time. -/
theorem webhookSuccess_reapplication_absorbs (db : DB) (intent : StripePaymentIntent)
    (t1 t2 : Nat) (rawBody signatureHeader secret : String) :
    handlePaymentSucceeded (handlePaymentSucceeded db intent t1) intent t2 =
      handlePaymentSucceeded db intent t2 ∧
    handlePaymentSucceeded (handlePaymentSucceeded db intent t1) intent t1 =
      handlePaymentSucceeded db intent t1 ∧
    webhookPOST (handlePaymentSucceeded db intent t1)
        (fun _ _ _ => some (StripeEvent.paymentIntentSucceeded intent))
        rawBody signatureHeader secret t2 =
      ({ httpStatus := 200, errorMsg := none }, handlePaymentSucceeded db intent t2) := by
  refine ⟨hps_absorb db intent t1 t2, hps_absorb db intent t1 t1, ?_⟩
  simp only [webhookPOST]
  rw [hps_absorb db intent t1 t2]

/-- Claim C2, counterexample: a Payment that has already reached the
terminal status `succeeded` is reverted to `failed` by a later
`payment_intent.payment_failed` event for the same intent id — the status
does regress, contrary to the claim. -/
theorem paymentFailed_regresses_succeeded_cex :
    dbSucceeded.payments.map Payment.status = ["succeeded"] ∧
    (handlePaymentFailed dbSucceeded intentFailedSample).payments.map Payment.status =
      ["failed"] := by
  decide

/-- Claim C2, amended: `handlePaymentFailed` overwrites the status of the
Payment matching the event's intent id with `failed` unconditionally —
there is no guard on the current status, so in particular a Payment whose
status is `succeeded` regresses to `failed`; terminal-state monotonicity is
not enforced. -/
theorem paymentFailed_overwrites_succeeded (db : DB) (intent : StripePaymentIntent)
    (p : Payment)
    (hfind : db.payments.find? (fun q => q.stripePaymentIntentId == some intent.id) = some p)
    (_hsucc : p.status = "succeeded") :
    handlePaymentFailed db intent =
      { db with
        payments := db.payments.map
          (fun q => if q.id = p.id then { q with status := "failed" } else q) } :=
  hpf_normal_form db intent p hfind

/-- Claim C2, witness for the amended theorem at concrete data. -/
theorem paymentFailed_overwrites_succeeded_witness :
    handlePaymentFailed dbSucceeded intentFailedSample =
      { dbSucceeded with
        payments := dbSucceeded.payments.map
          (fun q => if q.id = paySucceeded.id then { q with status := "failed" } else q) } :=
  paymentFailed_overwrites_succeeded dbSucceeded intentFailedSample paySucceeded
    (by decide) (by decide)

/-- Claim C5: when signature verification of the raw body against the
webhook secret fails, the webhook route responds 400 Invalid signature and
the store — every Payment and Booking — is left exactly as it was; no event
is processed. -/
theorem webhook_invalid_signature_rejected (db : DB)
    (constructEvent : String → String → String → Option StripeEvent)
    (rawBody signatureHeader secret : String) (now : Nat)
    (hfail : constructEvent rawBody signatureHeader secret = none) :
    webhookPOST db constructEvent rawBody signatureHeader secret now =
      ({ httpStatus := 400, errorMsg := some "Invalid signature" }, db) := by
  unfold webhookPOST
  rw [hfail]

/-- Claim C5, witness at concrete data. -/
theorem webhook_invalid_signature_rejected_witness :
    webhookPOST dbMain (fun _ _ _ => none) "raw-bytes" "t=1,v1=bad" "whsec_1" 7 =
      ({ httpStatus := 400, errorMsg := some "Invalid signature" }, dbMain) :=
  webhook_invalid_signature_rejected dbMain (fun _ _ _ => none)
    "raw-bytes" "t=1,v1=bad" "whsec_1" 7 rfl

/-- Claim C6: a `charge.refunded` event whose charge id matches an existing
Payment in status `succeeded` sets that Payment's status to `refunded` and
leaves every Booking record unchanged. -/
theorem chargeRefunded_updates_payment_only (db : DB) (charge : StripeCharge) (p : Payment)
    (hfind : db.payments.find? (fun q => q.stripeChargeId == some charge.id) = some p)
    (_hsucc : p.status = "succeeded") :
    handleChargeRefunded db charge =
      { db with
        payments := db.payments.map
          (fun q => if q.id = p.id then { q with status := "refunded" } else q) } ∧
    (handleChargeRefunded db charge).bookings = db.bookings := by
  refine ⟨hcr_normal_form db charge p hfind, ?_⟩
  rw [hcr_normal_form db charge p hfind]

/-- Claim C6, witness at concrete data. -/
theorem chargeRefunded_updates_payment_only_witness :
    (handleChargeRefunded dbSucceeded { id := "ch_1" } =
      { dbSucceeded with
        payments := dbSucceeded.payments.map
          (fun q => if q.id = paySucceeded.id then { q with status := "refunded" } else q) }) ∧
    (handleChargeRefunded dbSucceeded { id := "ch_1" }).bookings = dbSucceeded.bookings :=
  chargeRefunded_updates_payment_only dbSucceeded { id := "ch_1" } paySucceeded
    (by decide) (by decide)

/-- Claim C3: for an existing Payment id, the PUT confirmation handler
splits on the gateway-reported intent status — on `succeeded` it applies
the success update (status, charge id, paidAt) to the Payment and confirms
the associated Booking exactly when the paymentType is `full`; on
`processing` it answers still-processing with no state mutation; on any
other status it answers payment-failed with no state mutation. -/
theorem confirmIntent_status_cases (db : DB)
    (retrieveIntent : String → Option StripePaymentIntent)
    (intentId pid : String) (now : Nat) (intent : StripePaymentIntent) (payment : Payment)
    (hid : intentId ≠ "") (hpid : pid ≠ "")
    (hret : retrieveIntent intentId = some intent)
    (hfind : db.payments.find? (fun p => p.id == pid) = some payment)
    (hbk : payment.paymentType = "full" →
      (db.bookings.find? (fun b => b.id == payment.bookingId)).isSome) :
    (intent.status = "succeeded" →
      confirmIntentPUT db retrieveIntent (some intentId) (some pid) now =
        (.confirmed (markSucceeded intent now payment),
         { db with
           payments := db.payments.map
             (fun q => if q.id = pid then markSucceeded intent now q else q),
           bookings :=
             if payment.paymentType = "full" then
               db.bookings.map
                 (fun b => if b.id = payment.bookingId then confirmBooking b else b)
             else db.bookings })) ∧
    (intent.status = "processing" →
      confirmIntentPUT db retrieveIntent (some intentId) (some pid) now =
        (.stillProcessing, db)) ∧
    (intent.status ≠ "succeeded" → intent.status ≠ "processing" →
      confirmIntentPUT db retrieveIntent (some intentId) (some pid) now =
        (.paymentFailed, db)) := by
  refine ⟨?_, ?_, ?_⟩
  · intro hstat
    exact confirm_succeeded_eq db retrieveIntent intentId pid now intent payment
      hid hpid hret hstat hfind hbk
  · intro hstat
    unfold confirmIntentPUT
    rw [if_neg (by simp [isBlank, hid, hpid])]
    simp [hret, hstat]
  · intro hs1 hs2
    unfold confirmIntentPUT
    rw [if_neg (by simp [isBlank, hid, hpid])]
    simp [hret, hs1, hs2]

/-- Claim C3, witness: the succeeded branch at concrete data. -/
theorem confirmIntent_status_cases_witness :
    confirmIntentPUT dbMain (fun _ => some intentSucceededSample)
        (some "pi_1") (some "pay_1") 777 =
      (.confirmed (markSucceeded intentSucceededSample 777 payPendingFull),
       { dbMain with
         payments := dbMain.payments.map
           (fun q => if q.id = "pay_1" then markSucceeded intentSucceededSample 777 q else q),
         bookings :=
           if payPendingFull.paymentType = "full" then
             dbMain.bookings.map
               (fun b => if b.id = payPendingFull.bookingId then confirmBooking b else b)
           else dbMain.bookings }) :=
  (confirmIntent_status_cases dbMain (fun _ => some intentSucceededSample)
    "pi_1" "pay_1" 777 intentSucceededSample payPendingFull
    (by decide) (by decide) rfl (by decide) (fun _ => by decide)).1 rfl

/-- Claim C4: with an existing booking, a nonzero amount and a payment
type (defaulting to `deposit` when omitted), the intent-creation POST asks
the gateway for `Math.round(amount * 100)` minor units in currency `usd`,
appends exactly one new Payment row with status `pending` that stores the
gateway intent id and the caller-supplied amount unchanged, and returns the
gateway client secret together with the new Payment's id. -/
theorem createIntent_persists_pending_payment (db : DB)
    (gatewayCreate : IntentCreateParams → Option (String × String))
    (newPaymentId bid : String) (a : ℚ) (pt : Option String)
    (booking : Booking) (service : Service) (intentId clientSecret : String)
    (hbid : bid ≠ "") (hpos : 0 < a)
    (hbook : db.bookings.find? (fun b => b.id == bid) = some booking)
    (hsvc : db.services.find? (fun s => s.id == booking.serviceId) = some service)
    (hgw : gatewayCreate
      { amountMinor := mathRound (a * 100), currency := "usd",
        metaBookingId := bid, metaPaymentType := pt.getD "deposit",
        metaCustomerEmail := booking.customerEmail,
        metaServiceName := service.name } = some (intentId, clientSecret)) :
    createIntentPOST db gatewayCreate newPaymentId (some bid) (some a) pt =
      (.created clientSecret newPaymentId a (pt.getD "deposit"),
       { db with payments := db.payments ++
          [{ id := newPaymentId, bookingId := bid, amount := a,
             currency := "usd", status := "pending", paymentType := pt.getD "deposit",
             stripePaymentIntentId := some intentId, stripeChargeId := none,
             paidAt := none,
             description := pt.getD "deposit" ++ " payment for " ++ service.name }] },
       some { amountMinor := mathRound (a * 100), currency := "usd",
              metaBookingId := bid, metaPaymentType := pt.getD "deposit",
              metaCustomerEmail := booking.customerEmail,
              metaServiceName := service.name }) := by
  have ha : a ≠ 0 := ne_of_gt hpos
  unfold createIntentPOST
  rw [if_neg (by simp [isBlank, isFalsyAmount, hbid, ha])]
  simp only [Option.getD_some, hbook, hsvc, hgw]

/-- Claim C4, witness at concrete data, exercising the deposit default. -/
theorem createIntent_persists_pending_payment_witness :
    createIntentPOST dbMain (fun _ => some ("pi_new", "cs_secret")) "pay_new"
        (some "bk_1") (some 75) none =
      (.created "cs_secret" "pay_new" 75 ((none : Option String).getD "deposit"),
       { dbMain with payments := dbMain.payments ++
          [{ id := "pay_new", bookingId := "bk_1", amount := 75,
             currency := "usd", status := "pending",
             paymentType := (none : Option String).getD "deposit",
             stripePaymentIntentId := some "pi_new", stripeChargeId := none,
             paidAt := none,
             description := (none : Option String).getD "deposit" ++ " payment for " ++
               svcSample.name }] },
       some { amountMinor := mathRound ((75 : ℚ) * 100), currency := "usd",
              metaBookingId := "bk_1", metaPaymentType := (none : Option String).getD "deposit",
              metaCustomerEmail := bookPending.customerEmail,
              metaServiceName := svcSample.name }) :=
  createIntent_persists_pending_payment dbMain (fun _ => some ("pi_new", "cs_secret"))
    "pay_new" "bk_1" 75 none bookPending svcSample "pi_new" "cs_secret"
    (by decide) (by norm_num) (by decide) (by decide) rfl

/-- Claim C7, counterexample: when the gateway reports the intent as
succeeded but the supplied paymentId matches no Payment row, the PUT
handler does not produce a 4xx NotFound response — the Prisma update throws
and the generic catch answers the 500 server error. -/
theorem confirm_missing_payment_not_4xx_cex :
    confirmIntentPUT dbMain (fun _ => some intentSucceededSample)
        (some "pi_1") (some "pay_unknown") 5 = (.serverError, dbMain) ∧
    confirmHttpStatus ConfirmResult.serverError = 500 := by
  constructor
  · decide
  · rfl

/-- Claim C7, amended: when the gateway reports succeeded and the supplied
paymentId references no existing Payment, the Prisma update throws and the
handler's generic catch surfaces a 500 `Failed to confirm payment` response
- not a 4xx NotFound - and no record is mutated. -/
theorem confirm_missing_payment_generic_error (db : DB)
    (retrieveIntent : String → Option StripePaymentIntent)
    (intentId pid : String) (now : Nat) (intent : StripePaymentIntent)
    (hid : intentId ≠ "") (hpid : pid ≠ "")
    (hret : retrieveIntent intentId = some intent)
    (hstat : intent.status = "succeeded")
    (hfind : db.payments.find? (fun p => p.id == pid) = none) :
    confirmIntentPUT db retrieveIntent (some intentId) (some pid) now =
      (.serverError, db) ∧
    confirmHttpStatus
      (confirmIntentPUT db retrieveIntent (some intentId) (some pid) now).1 = 500 := by
  have h : confirmIntentPUT db retrieveIntent (some intentId) (some pid) now =
      (.serverError, db) := by
    unfold confirmIntentPUT prismaUpdatePayment
    rw [if_neg (by simp [isBlank, hid, hpid])]
    simp [hret, hstat, hfind]
  exact ⟨h, by rw [h]; rfl⟩

/-- Claim C7, witness for the amended theorem at concrete data. -/
theorem confirm_missing_payment_generic_error_witness :
    (confirmIntentPUT dbSucceeded (fun _ => some intentSucceededSample)
        (some "pi_1") (some "pay_ghost") 9 = (.serverError, dbSucceeded)) ∧
    confirmHttpStatus
      (confirmIntentPUT dbSucceeded (fun _ => some intentSucceededSample)
        (some "pi_1") (some "pay_ghost") 9).1 = 500 :=
  confirm_missing_payment_generic_error dbSucceeded (fun _ => some intentSucceededSample)
    "pi_1" "pay_ghost" 9 intentSucceededSample
    (by decide) (by decide) rfl (by decide) (by decide)

/-- Claim C8: a Booking created through the booking POST route from an
existing Service stores totalAmount equal to the Service price and
depositAmount equal to half of it, as values copied at creation time — a
later change to the Service price leaves the stored Booking amounts
untouched. -/
theorem booking_amounts_snapshot_from_price (db : DB) (req : BookingRequest)
    (now : Nat) (nid : String) (service : Service)
    (hguard : (isBlank req.serviceId || isBlank req.customerName || isBlank req.customerEmail ||
      isBlank req.customerPhone || isBlank req.customerAddress) = false)
    (hsvc : db.services.find? (fun s => s.id == req.serviceId.getD "") = some service) :
    createBookingPOST db req now nid =
      (.created (newBookingFrom req now nid service),
       { db with bookings := db.bookings ++ [newBookingFrom req now nid service] }) ∧
    (newBookingFrom req now nid service).totalAmount = service.price ∧
    (newBookingFrom req now nid service).depositAmount = service.price / 2 ∧
    (∀ q : ℚ,
      (updateServicePrice
        { db with bookings := db.bookings ++ [newBookingFrom req now nid service] }
        service.id q).bookings =
      db.bookings ++ [newBookingFrom req now nid service]) := by
  refine ⟨?_, rfl, ?_, fun q => rfl⟩
  · unfold createBookingPOST
    rw [hguard]
    simp only [Bool.false_eq_true, if_false, hsvc]
  · show service.price * 0.5 = service.price / 2
    rw [show (0.5 : ℚ) = 1 / 2 by norm_num]
    ring

/-- Claim C8, witness at concrete data. -/
theorem booking_amounts_snapshot_from_price_witness :
    (createBookingPOST dbMain
        { serviceId := some "svc_1", customerName := some "Grace",
          customerEmail := some "grace@example.com", customerPhone := some "555-0101",
          customerAddress := some "2 Oak Ave", budget := none, notes := none,
          status := none, scheduledDate := none } 10 "bk_new" =
      (.created (newBookingFrom
          { serviceId := some "svc_1", customerName := some "Grace",
            customerEmail := some "grace@example.com", customerPhone := some "555-0101",
            customerAddress := some "2 Oak Ave", budget := none, notes := none,
            status := none, scheduledDate := none } 10 "bk_new" svcSample),
       { dbMain with bookings := dbMain.bookings ++ [newBookingFrom
          { serviceId := some "svc_1", customerName := some "Grace",
            customerEmail := some "grace@example.com", customerPhone := some "555-0101",
            customerAddress := some "2 Oak Ave", budget := none, notes := none,
            status := none, scheduledDate := none } 10 "bk_new" svcSample] })) ∧
    (newBookingFrom
        { serviceId := some "svc_1", customerName := some "Grace",
          customerEmail := some "grace@example.com", customerPhone := some "555-0101",
          customerAddress := some "2 Oak Ave", budget := none, notes := none,
          status := none, scheduledDate := none } 10 "bk_new" svcSample).totalAmount =
      svcSample.price ∧
    (newBookingFrom
        { serviceId := some "svc_1", customerName := some "Grace",
          customerEmail := some "grace@example.com", customerPhone := some "555-0101",
          customerAddress := some "2 Oak Ave", budget := none, notes := none,
          status := none, scheduledDate := none } 10 "bk_new" svcSample).depositAmount =
      svcSample.price / 2 ∧
    (∀ q : ℚ,
      (updateServicePrice
        { dbMain with bookings := dbMain.bookings ++ [newBookingFrom
          { serviceId := some "svc_1", customerName := some "Grace",
            customerEmail := some "grace@example.com", customerPhone := some "555-0101",
            customerAddress := some "2 Oak Ave", budget := none, notes := none,
            status := none, scheduledDate := none } 10 "bk_new" svcSample] }
        svcSample.id q).bookings =
      dbMain.bookings ++ [newBookingFrom
        { serviceId := some "svc_1", customerName := some "Grace",
          customerEmail := some "grace@example.com", customerPhone := some "555-0101",
          customerAddress := some "2 Oak Ave", budget := none, notes := none,
          status := none, scheduledDate := none } 10 "bk_new" svcSample]) :=
  booking_amounts_snapshot_from_price dbMain
    { serviceId := some "svc_1", customerName := some "Grace",
      customerEmail := some "grace@example.com", customerPhone := some "555-0101",
      customerAddress := some "2 Oak Ave", budget := none, notes := none,
      status := none, scheduledDate := none } 10 "bk_new" svcSample
    (by decide) (by decide)

/-- Payment whose stored intent id differs from the one the confirmation
request names; used to witness Claim C9. -/
def payMismatch : Payment :=
  { payPendingFull with id := "pay_m", stripePaymentIntentId := some "pi_B" }

/-- Store holding `payMismatch`; used to witness Claim C9. -/
def dbMismatch : DB :=
  { services := [svcSample], bookings := [bookPending], payments := [payMismatch] }

/-- Claim C9: the PUT confirmation handler never compares the supplied
paymentIntentId with the intent id stored on the Payment row named by
paymentId — when the gateway reports intent A as succeeded while the row
stores a different intent B, the handler still marks that Payment
succeeded, and confirms its Booking when its paymentType is `full`. -/
theorem confirm_ignores_intent_mismatch (db : DB)
    (retrieveIntent : String → Option StripePaymentIntent)
    (intentId pid otherIntentId : String) (now : Nat)
    (intent : StripePaymentIntent) (payment : Payment)
    (hid : intentId ≠ "") (hpid : pid ≠ "")
    (hret : retrieveIntent intentId = some intent)
    (hstat : intent.status = "succeeded")
    (hfind : db.payments.find? (fun p => p.id == pid) = some payment)
    (_hstored : payment.stripePaymentIntentId = some otherIntentId)
    (_hne : otherIntentId ≠ intentId)
    (hfull : payment.paymentType = "full")
    (hbk : (db.bookings.find? (fun b => b.id == payment.bookingId)).isSome) :
    confirmIntentPUT db retrieveIntent (some intentId) (some pid) now =
      (.confirmed (markSucceeded intent now payment),
       { db with
         payments := db.payments.map
           (fun q => if q.id = pid then markSucceeded intent now q else q),
         bookings := db.bookings.map
           (fun b => if b.id = payment.bookingId then confirmBooking b else b) }) := by
  have h := confirm_succeeded_eq db retrieveIntent intentId pid now intent payment
    hid hpid hret hstat hfind (fun _ => hbk)
  rw [h]
  simp [hfull]

/-- Claim C9, witness: the gateway reports `pi_1` as succeeded while the
row stores `pi_B`; the Payment is still marked succeeded and its Booking
confirmed. -/
theorem confirm_ignores_intent_mismatch_witness :
    confirmIntentPUT dbMismatch (fun _ => some intentSucceededSample)
        (some "pi_1") (some "pay_m") 42 =
      (.confirmed (markSucceeded intentSucceededSample 42 payMismatch),
       { dbMismatch with
         payments := dbMismatch.payments.map
           (fun q => if q.id = "pay_m" then markSucceeded intentSucceededSample 42 q else q),
         bookings := dbMismatch.bookings.map
           (fun b => if b.id = payMismatch.bookingId then confirmBooking b else b) }) :=
  confirm_ignores_intent_mismatch dbMismatch (fun _ => some intentSucceededSample)
    "pi_1" "pay_m" "pi_B" 42 intentSucceededSample payMismatch
    (by decide) (by decide) rfl (by decide) (by decide) (by decide) (by decide)
    (by decide) (by decide)

/-- Claim C10: a Booking created by the booking POST route is created with
status `pending` and scheduledDate exactly seven days (in milliseconds)
after the creation time; client-supplied `status` or `scheduledDate` fields
in the request body do not influence the outcome, which reads only the
seven destructured properties. -/
theorem booking_create_forces_defaults (db : DB) (req : BookingRequest)
    (now : Nat) (nid : String) (service : Service)
    (hguard : (isBlank req.serviceId || isBlank req.customerName || isBlank req.customerEmail ||
      isBlank req.customerPhone || isBlank req.customerAddress) = false)
    (hsvc : db.services.find? (fun s => s.id == req.serviceId.getD "") = some service) :
    createBookingPOST db req now nid =
      (.created (newBookingFrom req now nid service),
       { db with bookings := db.bookings ++ [newBookingFrom req now nid service] }) ∧
    (newBookingFrom req now nid service).status = "pending" ∧
    (newBookingFrom req now nid service).scheduledDate = now + 7 * 24 * 60 * 60 * 1000 ∧
    (∀ st sd, createBookingPOST db { req with status := st, scheduledDate := sd } now nid =
      createBookingPOST db req now nid) := by
  refine ⟨?_, rfl, rfl, fun st sd => ?_⟩
  · unfold createBookingPOST
    rw [hguard]
    simp only [Bool.false_eq_true, if_false, hsvc]
  · cases req
    rfl

/-- Claim C10, witness: the client supplies `status` and `scheduledDate`
in the body and they are ignored. -/
theorem booking_create_forces_defaults_witness :
    (createBookingPOST dbMain
        { serviceId := some "svc_1", customerName := some "Lin",
          customerEmail := some "lin@example.com", customerPhone := some "555-0102",
          customerAddress := some "3 Elm Rd", budget := some 300, notes := some "back door",
          status := some "confirmed", scheduledDate := some 42 } 20 "bk_x" =
      (.created (newBookingFrom
          { serviceId := some "svc_1", customerName := some "Lin",
            customerEmail := some "lin@example.com", customerPhone := some "555-0102",
            customerAddress := some "3 Elm Rd", budget := some 300, notes := some "back door",
            status := some "confirmed", scheduledDate := some 42 } 20 "bk_x" svcSample),
       { dbMain with bookings := dbMain.bookings ++ [newBookingFrom
          { serviceId := some "svc_1", customerName := some "Lin",
            customerEmail := some "lin@example.com", customerPhone := some "555-0102",
            customerAddress := some "3 Elm Rd", budget := some 300, notes := some "back door",
            status := some "confirmed", scheduledDate := some 42 } 20 "bk_x" svcSample] })) ∧
    (newBookingFrom
        { serviceId := some "svc_1", customerName := some "Lin",
          customerEmail := some "lin@example.com", customerPhone := some "555-0102",
          customerAddress := some "3 Elm Rd", budget := some 300, notes := some "back door",
          status := some "confirmed", scheduledDate := some 42 } 20 "bk_x" svcSample).status =
      "pending" ∧
    (newBookingFrom
        { serviceId := some "svc_1", customerName := some "Lin",
          customerEmail := some "lin@example.com", customerPhone := some "555-0102",
          customerAddress := some "3 Elm Rd", budget := some 300, notes := some "back door",
          status := some "confirmed", scheduledDate := some 42 } 20 "bk_x" svcSample).scheduledDate =
      20 + 7 * 24 * 60 * 60 * 1000 ∧
    (∀ st sd, createBookingPOST dbMain
        { serviceId := some "svc_1", customerName := some "Lin",
          customerEmail := some "lin@example.com", customerPhone := some "555-0102",
          customerAddress := some "3 Elm Rd", budget := some 300, notes := some "back door",
          status := st, scheduledDate := sd } 20 "bk_x" =
      createBookingPOST dbMain
        { serviceId := some "svc_1", customerName := some "Lin",
          customerEmail := some "lin@example.com", customerPhone := some "555-0102",
          customerAddress := some "3 Elm Rd", budget := some 300, notes := some "back door",
          status := some "confirmed", scheduledDate := some 42 } 20 "bk_x") :=
  booking_create_forces_defaults dbMain
    { serviceId := some "svc_1", customerName := some "Lin",
      customerEmail := some "lin@example.com", customerPhone := some "555-0102",
      customerAddress := some "3 Elm Rd", budget := some 300, notes := some "back door",
      status := some "confirmed", scheduledDate := some 42 } 20 "bk_x" svcSample
    (by decide) (by decide)

end BookingSystem
